import Mathlib

/-!
Verification of the chitieu Telegram expense bot (src/bot.py, src/services.py)
against its natural-language specification.

The Python code is shallowly embedded: text is `List Char` (Python `str`
indexing is character based), machine integers are `Nat`/`Int` (Python ints
are unbounded), fallible code returns `Option`/`Except`.

Modelling notes, applying throughout:
* `\d` and `\s` of Python's `re` are modelled as the ASCII digits `0-9` and
  the six ASCII whitespace characters; `str.lower` as ASCII lowering
  (`Char.toLower`); Python `\w` as ASCII alphanumerics, `_`, and any
  non-ASCII character (covering the Vietnamese letters of this repository).
* `float(s)` on a matched decimal literal followed by `int(f * multiplier)`
  is modelled by exact decimal arithmetic (`⌊value · multiplier⌋` over ℚ,
  computed on numerator/denominator): IEEE-754 rounding can differ by one
  unit on contrived fractional inputs, which no claim here depends on.
* `int(s)` on a cell string is modelled as: strip ASCII whitespace, optional
  sign, then a non-empty digit string.
-/

/-! ## Character-level helpers -/

abbrev Chars := List Char

/-- The six whitespace characters recognised by the model of `\s`,
`str.strip` and `str.split`. -/
def isPySpace (c : Char) : Bool :=
  c = ' ' || c = '\t' || c = '\n' || c = '\r' || c = '\x0b' || c = '\x0c'

/-- Model of `str.lower` (ASCII). -/
def pyLower (c : Char) : Char := c.toLower

/-- Model of `str.strip()` : drop leading and trailing whitespace. -/
def pyStrip (cs : Chars) : Chars :=
  ((cs.dropWhile isPySpace).reverse.dropWhile isPySpace).reverse

/-- Numeric value of a digit string (most significant first). -/
def digitsToNat (cs : Chars) : Nat :=
  cs.foldl (fun a c => a * 10 + (c.toNat - 48)) 0

/-- Unsigned digit-run parse used by the model of `int(s)`. -/
def digitRunVal (ds : Chars) : Option Nat :=
  if ds ≠ [] ∧ ds.all Char.isDigit then some (digitsToNat ds) else none

/-- Model of Python `int(s)` on a character list: optional sign then a
non-empty digit run, surrounding whitespace allowed. Returns `none` where
Python raises `ValueError`. -/
def pyIntChars (cs0 : Chars) : Option Int :=
  match pyStrip cs0 with
  | '-' :: rest => (digitRunVal rest).map (fun n => -(n : Int))
  | '+' :: rest => (digitRunVal rest).map (fun n => (n : Int))
  | rest => (digitRunVal rest).map (fun n => (n : Int))

/-- Model of Python `int(s)` on a string. -/
def pyInt (s : String) : Option Int := pyIntChars s.data

/-- Model of `str.split()` with no separator: split on whitespace runs,
producing no empty chunks. -/
def pySplitGo (acc : Chars) : Chars → List Chars
  | [] => if acc = [] then [] else [acc.reverse]
  | c :: rest =>
    if isPySpace c then
      if acc = [] then pySplitGo [] rest
      else acc.reverse :: pySplitGo [] rest
    else pySplitGo (c :: acc) rest

def pySplit (cs : Chars) : List Chars := pySplitGo [] cs

/-- Contiguous-substring test, the model of Python's `needle in hay`. -/
def containsSub (needle : Chars) : Chars → Bool
  | [] => needle.isEmpty
  | c :: rest => needle.isPrefixOf (c :: rest) || containsSub needle rest

/-- `SubOf needle hay` : `needle` occurs contiguously inside `hay`. -/
def SubOf (needle hay : Chars) : Prop :=
  ∃ pre post, hay = pre ++ needle ++ post

/-! ## The Amount Lexer (`parse_amount`, src/bot.py lines 247-278)

Each regex of the pattern table has one of three shapes, embedded below:
* `(\d+(?:\.\d+)?)\s*REQ(?:OPT)?` — digits, optional decimal fraction,
  whitespace, a required literal and an optional continuation.  The literals
  contain no digits, dots or whitespace, so the greedy `\d+(?:\.\d+)?\s*`
  engine never needs to backtrack: the maximal runs are the only viable ones.
* `(\d+(?:\.\d+)?)\s*000` — here the literal `000` is made of digits, and
  Python's backtracking order matters: longest group first, fraction
  alternatives (longest first) before the empty fraction.
* `(\d{4,})` — a maximal digit run of length at least 4. -/

structure Candidate where
  amount : Nat
  start : Nat
  stop : Nat
  deriving DecidableEq, Repr

/-- Result of matching one pattern at one position: the integer digits of
group 1, its optional fraction digits, and the end of the whole match. -/
abbrev MatchRes := Chars × Option Chars × Nat

/-- `int(float(group) * multiplier)` in exact decimal arithmetic:
`⌊(d.f) · mult⌋`. -/
def amountOf (d : Chars) (f : Option Chars) (mult : Nat) : Nat :=
  match f with
  | none => digitsToNat d * mult
  | some fs => (digitsToNat d * 10 ^ fs.length + digitsToNat fs) * mult / 10 ^ fs.length

/-- Leading digit run of `t.drop i`. -/
def digitRunAt (t : Chars) (i : Nat) : Chars := (t.drop i).takeWhile Char.isDigit

/-- Number of whitespace characters at position `i`. -/
def spaceRunAt (t : Chars) (i : Nat) : Nat := ((t.drop i).takeWhile isPySpace).length

/-- Matcher for `(\d+(?:\.\d+)?)\s*REQ(?:OPT)?` at position `i`: maximal
digit run, then a maximal `.digits` fraction if present, then whitespace,
then the required literal, extended by the optional literal when present. -/
def matchNumSuffix (req opt : Chars) (t : Chars) (i : Nat) : Option MatchRes :=
  let d := digitRunAt t i
  if d = [] then none
  else
    let j := i + d.length
    let fr :=
      if (t.drop j).head? = some '.' ∧ digitRunAt t (j + 1) ≠ [] then
        some (digitRunAt t (j + 1))
      else none
    let j2 := match fr with
      | some fs => j + 1 + fs.length
      | none => j
    let s := j2 + spaceRunAt t j2
    if req.isPrefixOf (t.drop s) then
      let e0 := s + req.length
      let stop := if opt ≠ [] ∧ opt.isPrefixOf (t.drop e0) then e0 + opt.length else e0
      some (d, fr, stop)
    else none

/-- One backtracking attempt for `(\d+(?:\.\d+)?)\s*000`: group takes `a`
digits of the run; try fraction lengths `b, b-1, …, 1`, then no fraction. -/
def match000Frac (t : Chars) (j : Nat) (fracRun : Chars) : Nat → Option MatchRes
  | 0 => none
  | b + 1 =>
    let k := j + 1 + (b + 1)
    let s := k + spaceRunAt t k
    if ['0', '0', '0'].isPrefixOf (t.drop s) then
      some (fracRun.take (b + 1), some (fracRun.take (b + 1)), s + 3)
    else match000Frac t j fracRun b

def match000Attempt (t : Chars) (i : Nat) (run : Chars) : Nat → Option MatchRes
  | 0 => none
  | a + 1 =>
    let j := i + (a + 1)
    let fracRun := if (t.drop j).head? = some '.' then digitRunAt t (j + 1) else []
    let viaFrac :=
      match match000Frac t j fracRun fracRun.length with
      | some (_, fr, stop) => some (run.take (a + 1), fr, stop)
      | none => none
    match viaFrac with
    | some r => some r
    | none =>
      let s := j + spaceRunAt t j
      if ['0', '0', '0'].isPrefixOf (t.drop s) then
        some (run.take (a + 1), none, s + 3)
      else match000Attempt t i run a

/-- Matcher for `(\d+(?:\.\d+)?)\s*000` in Python's backtracking order. -/
def match000 (t : Chars) (i : Nat) : Option MatchRes :=
  let run := digitRunAt t i
  if run = [] then none else match000Attempt t i run run.length

/-- Matcher for `(\d{4,})`. -/
def matchD4 (t : Chars) (i : Nat) : Option MatchRes :=
  let run := digitRunAt t i
  if 4 ≤ run.length then some (run, none, i + run.length) else none

/-- The pattern table of `parse_amount`, in source order. -/
inductive Pat
  | numSuffix (req opt : Chars) (mult : Nat)
  | zeros3
  | digits4
  deriving DecidableEq

def Pat.matcher : Pat → Chars → Nat → Option MatchRes
  | .numSuffix req opt _ => matchNumSuffix req opt
  | .zeros3 => match000
  | .digits4 => matchD4

def Pat.mult : Pat → Nat
  | .numSuffix _ _ m => m
  | .zeros3 => 1
  | .digits4 => 1

def patterns : List Pat :=
  [ .numSuffix "tr".data "iệu".data 1000000
  , .numSuffix "k".data "ilo".data 1000
  , .numSuffix "ng".data "àn".data 1000
  , .numSuffix "nghìn".data [] 1000
  , .zeros3
  , .numSuffix "d".data "ồng".data 1
  , .numSuffix "đ".data [] 1
  , .digits4 ]

/-- `re.finditer` scan: try each position left to right, emit the match and
continue from its end (all our matches are non-empty). `fuel` only bounds
the recursion; `t.length + 1` steps always suffice. -/
def findIterGo (p : Pat) (t : Chars) : Nat → Nat → List Candidate
  | 0, _ => []
  | fuel + 1, i =>
    if t.length < i then []
    else
      match p.matcher t i with
      | some (d, fr, stop) =>
        ⟨amountOf d fr p.mult, i, stop⟩ :: findIterGo p t fuel (max stop (i + 1))
      | none => findIterGo p t fuel (i + 1)

def findIter (p : Pat) (t : Chars) : List Candidate :=
  findIterGo p t (t.length + 1) 0

/-- All candidates found by all patterns over the lowercased text, in
pattern order — the `amounts_found` list of the source before sorting. -/
def allCandidates (t : Chars) : List Candidate :=
  patterns.flatMap (fun p => findIter p (t.map pyLower))

/-- Stable descending insertion by a numeric key: `x` goes in front of the
first element whose key it reaches or exceeds, so among equal keys the
original order is kept — the behaviour of Python's stable
`sort(key=…, reverse=True)`. -/
def insertDescBy {α : Type} (key : α → Nat) (x : α) : List α → List α
  | [] => [x]
  | y :: ys => if key y ≤ key x then x :: y :: ys else y :: insertDescBy key x ys

/-- Stable descending sort by a numeric key (insertion sort; agrees with any
stable sort under the same key, in particular Python's). -/
def sortDescBy {α : Type} (key : α → Nat) (l : List α) : List α :=
  l.foldr (insertDescBy key) []

/-- `parse_amount` (src/bot.py): collect candidates from every pattern over
the lowercased text; if any, sort descending by value
(`sort(key=lambda x: x[0], reverse=True)`) and return the head's value with
the sorted list, else `(0, [])`. -/
def parse_amount (t : Chars) : Nat × List Candidate :=
  let found := allCandidates t
  if found = [] then (0, [])
  else
    let sorted := sortDescBy Candidate.amount found
    ((sorted.headD ⟨0, 0, 0⟩).amount, sorted)


/-! ## The Item-Name Extractor (`extract_item_name`, src/bot.py lines 281-310) -/

/-- The stop-word list of the source (`remove_words`), stored lowered as in
the source; the multi-word entries can never equal a single token but are
kept for fidelity. -/
def removeWords : List Chars :=
  [ "nay".data, "hôm nay".data, "hom nay".data, "vừa".data, "vua".data
  , "mới".data, "moi".data, "làm".data, "lam".data, "ăn".data, "an".data
  , "uống".data, "uong".data, "mua".data, "chi".data, "tiêu".data
  , "tieu".data, "ngon".data, "quá".data, "qua".data ]

/-- Model of Python `\w` (word character): ASCII alphanumerics, underscore,
and any non-ASCII character. -/
def isWordChar (c : Char) : Bool := c.isAlphanum || c = '_' || 127 < c.toNat

/-- Delete the matched spans from the text, processing spans sorted by start
descending (`text_cleaned[:start] + text_cleaned[end:]`, Python slices clamp
like `take`/`drop`). -/
def removeSpans (t : Chars) (positions : List Candidate) : Chars :=
  (sortDescBy Candidate.start positions).foldl
    (fun acc c => acc.take c.start ++ acc.drop c.stop) t

/-- Steps of `extract_item_name` up to the length test: delete spans, strip,
drop stop-words, rejoin, delete digit runs, strip. -/
def preRemainder (t : Chars) (positions : List Candidate) : Chars :=
  let cleaned := pyStrip (removeSpans t positions)
  let words := (pySplit cleaned).filter (fun w => !removeWords.contains (w.map pyLower))
  pyStrip ((List.intercalate [' '] words).filter (fun c => !c.isDigit))

/-- Final cleanup of `extract_item_name`: replace non-word, non-space
characters by spaces (`re.sub(r'[^\w\s]', ' ', …)`) and normalise
whitespace (`' '.join(item_name.split())`). -/
def finalClean (cs : Chars) : Chars :=
  List.intercalate [' ']
    (pySplit (cs.map (fun c => if isWordChar c || isPySpace c then c else ' ')))

/-- Earliest start among the spans (`min(pos[1] for pos in amount_positions)`);
the source only evaluates it on a non-empty list. -/
def minStart (positions : List Candidate) : Nat :=
  match positions.map Candidate.start with
  | [] => 0
  | s :: ss => ss.foldl min s

/-- The value of the source's `item_name` after the length-2 test: when
fewer than 2 characters survived the first cleanup, fall back to the text
before the earliest span (or the whole text when there are no spans). -/
def itemNameCore (t : Chars) (positions : List Candidate) : Chars :=
  if (preRemainder t positions).length < 2 then
    if positions ≠ [] then pyStrip (t.take (minStart positions)) else pyStrip t
  else preRemainder t positions

/-- `extract_item_name` (src/bot.py): clean the text, and when fewer than 2
characters survive fall back to the text before the earliest span (or the
whole text when there are no spans); afterwards scrub punctuation and return
the sentinel `"Không xác định"` when nothing remains. -/
def extract_item_name (t : Chars) (positions : List Candidate) : Chars :=
  if finalClean (itemNameCore t positions) = [] then "Không xác định".data
  else finalClean (itemNameCore t positions)

/-- Following the CLAIM's wording (not the source), for comparison with the
code: the "cleaned remainder (after removing spans, stopwords, digits,
punctuation)" — i.e. the remainder with the punctuation scrub already
applied.  The source tests the 2-character threshold on `preRemainder`,
BEFORE the punctuation scrub. -/
def specCleanedRemainder (t : Chars) (positions : List Candidate) : Chars :=
  finalClean (preRemainder t positions)

/-! ## The Category Classifier (`auto_categorize`, src/bot.py lines 313-325) -/

/-- `CATEGORY_KEYWORDS` of the source: the three named categories with their
keyword lists, in dictionary insertion order (the iteration order of the
source's loop). -/
def CATEGORY_KEYWORDS : List (String × List String) :=
  [ ("Ăn uống",
     [ "phở", "pho", "cơm", "com", "bún", "bun", "nước", "nuoc", "cf", "cafe"
     , "cà phê", "ca phe", "trà", "tra", "chè", "che", "bánh", "banh", "mì"
     , "mi", "bánh mì", "banh mi", "xôi", "xoi", "cháo", "chao", "súp", "sup"
     , "lẩu", "lau", "nướng", "nuong", "gà", "ga", "thịt", "thit", "cá", "ca"
     , "tôm", "tom", "rau", "đồ ăn", "do an", "ăn", "an", "uống", "uong"
     , "nước uống", "nuoc uong", "sữa", "sua", "kem", "bánh kẹo", "banh keo"
     , "snack", "kẹo", "keo" ])
  , ("Di chuyển",
     [ "xăng", "xang", "xe", "grab", "be", "uber", "taxi", "gửi xe", "gui xe"
     , "đỗ xe", "do xe", "bãi xe", "bai xe", "vé", "ve", "ticket", "máy bay"
     , "may bay", "tàu", "tau", "xe bus", "xe buýt", "xe buyt", "đi lại"
     , "di lai", "vận chuyển", "van chuyen", "ship", "giao hàng", "giao hang"
     , "đi", "di", "về", "ve", "đi về", "di ve" ])
  , ("Học tập",
     [ "vở", "vo", "sách", "sach", "bút", "but", "học", "hoc"
     , "sách giáo khoa", "sach giao khoa", "tài liệu", "tai lieu"
     , "photocopy", "photo", "in", "mực", "muc", "bút chì", "but chi"
     , "thước", "thuoc", "compa", "máy tính", "may tinh", "calculator"
     , "học phí", "hoc phi", "phí học", "phi hoc", "đăng ký", "dang ky"
     , "đăng kí", "dang ki", "khóa học", "khoa hoc" ]) ]

/-- One category entry matches when some keyword occurs in the lowered
item name (the source's inner `for keyword in keywords` returns the
category on the first hit, so only existence matters for the result). -/
def keywordHit (low : Chars) (entry : String × List String) : Bool :=
  entry.2.any (fun k => containsSub k.data low)

def autoCategorizeGo (low : Chars) : List (String × List String) → String
  | [] => "Khác"
  | entry :: rest => if keywordHit low entry then entry.1 else autoCategorizeGo low rest

/-- `auto_categorize` (src/bot.py): first category whose keyword occurs in
the lowered item name, in table order; `"Khác"` when none does. -/
def auto_categorize (itemName : Chars) : String :=
  autoCategorizeGo (itemName.map pyLower) CATEGORY_KEYWORDS


/-! ## The Rule-Based Parser (`parse_single_item` / `parse_multiple_items`,
src/bot.py lines 337-350 and 741-779) -/

/-- An expense record of the regex tier: `{'item': …, 'amount': …,
'category': …}`. -/
structure Item where
  item : Chars
  amount : Nat
  category : String
  deriving DecidableEq, Repr

/-- `parse_single_item` (src/bot.py): `none` models the `ValueError`
raised when `parse_amount` returns amount 0. -/
def parse_single_item (t : Chars) : Option Item :=
  if (parse_amount t).1 = 0 then none
  else
    some ⟨extract_item_name t (parse_amount t).2, (parse_amount t).1,
      auto_categorize (extract_item_name t (parse_amount t).2)⟩

/-- Clause separators of `re.split(r'[,，\n\r]+', text)`. -/
def isClauseSep (c : Char) : Bool := c = ',' || c = '，' || c = '\n' || c = '\r'

/-- The clause list of `parse_multiple_items`: split on separator runs,
strip each part, keep the non-empty ones.  (Splitting on single separators
and dropping empties afterwards yields the same list as splitting on runs.) -/
def splitClauses (t : Chars) : List Chars :=
  ((List.splitOnP isClauseSep (pyStrip t)).map pyStrip).filter (fun c => c ≠ [])

/-- `parse_multiple_items` (src/bot.py): parse each clause, keep the
successes, raise (`Except.error`) when none succeeds. -/
def parse_multiple_items (t : Chars) : Except String (List Item) :=
  let results := (splitClauses t).filterMap parse_single_item
  if results = [] then .error "Không tìm thấy món hợp lệ nào trong tin nhắn"
  else .ok results


/-! ## The Tier-1 validator (`parse_with_groq`, expense branch,
src/bot.py lines 611-696)

The model's JSON reply is external input; one reply item is embedded as a
`GroqItem`.  `none` in `item?` / `amount?` / `category?` / `date?` models a
missing key (for `category` also JSON `null`, which the source likewise
forces to `"Khác"`).  The `amount` value may be a JSON number or a string;
`JAmount.other` stands for any value Python's `int()` rejects.  Non-`dict`
list elements, which the source skips, are not represented. -/

/-- The fixed category enumeration of the validator. -/
def CATEGORIES : List String := ["Ăn uống", "Di chuyển", "Học tập", "Khác"]

inductive JAmount
  | int (n : Int)
  | str (s : String)
  | other
  deriving DecidableEq

/-- Python `int(value)` on an `amount` field: identity on integers, strict
parse on strings, failure otherwise. -/
def JAmount.toInt : JAmount → Option Int
  | .int n => some n
  | .str s => pyInt s
  | .other => none

structure GroqItem where
  item? : Option String
  amount? : Option JAmount
  category? : Option String
  date? : Option String
  deriving DecidableEq

/-- A validated expense of the Tier-1 branch, with the optional backdate
string carried through to persistence. -/
structure GroqExpense where
  item : String
  amount : Int
  category : String
  date? : Option String
  deriving DecidableEq, Repr

/-- The per-item validation of the `expense` branch: drop the item when the
`item` or `amount` key is missing, when `int(amount)` fails, or when the
amount is not positive; force a category outside `CATEGORIES` to `"Khác"`;
replace an empty or `"Chưa rõ"` name by `"Không xác định"`; keep the `date`
only when it is a non-empty string containing `'/'`. -/
def validateGroqItem (it : GroqItem) : Option GroqExpense :=
  match it.item?, it.amount? with
  | some itemVal, some amtVal =>
    let category := it.category?.getD "Khác"
    let category := if category ∈ CATEGORIES then category else "Khác"
    match amtVal.toInt with
    | none => none
    | some amount =>
      if amount ≤ 0 then none
      else
        let name := String.mk (pyStrip itemVal.data)
        let name := if name = "" ∨ name = "Chưa rõ" then "Không xác định" else name
        let date :=
          match it.date? with
          | some d => if d ≠ "" ∧ d.data.contains '/' then some d else none
          | none => none
        some ⟨name, amount, category, date⟩
  | _, _ => none

/-- The `expense` branch of `parse_with_groq`: validate every reply item,
and raise (`ValueError("Groq trả về list expenses rỗng")`, which the caller
turns into the Tier-2 fallback) when no item survives. -/
def parse_with_groq_expenses (items : List GroqItem) : Except String (List GroqExpense) :=
  let results := items.filterMap validateGroqItem
  if results = [] then .error "Groq trả về list expenses rỗng" else .ok results


/-! ## Calendar arithmetic (`datetime`)

`datetime` values are modelled by days since the Unix epoch together with
the second of the day, compared lexicographically.  `daysFromCivil` is the
standard proleptic-Gregorian day-number computation, defined for the years
1–9999 that `datetime` accepts. -/

def isLeap (y : Int) : Bool := y % 4 = 0 ∧ (y % 100 ≠ 0 ∨ y % 400 = 0)

def daysInMonth (y m : Int) : Int :=
  if m = 2 then (if isLeap y then 29 else 28)
  else if m = 4 ∨ m = 6 ∨ m = 9 ∨ m = 11 then 30
  else 31

/-- Validity of `datetime(year, month, day, …)` — a `ValueError` outside
this range. -/
def ymdValid (y m d : Int) : Bool :=
  1 ≤ y ∧ y ≤ 9999 ∧ 1 ≤ m ∧ m ≤ 12 ∧ 1 ≤ d ∧ d ≤ daysInMonth y m

/-- Days since 1970-01-01 of a valid Gregorian date (Hinnant's
`days_from_civil`; for `1 ≤ y` every intermediate quantity is
non-negative, so `Int.ediv` is the required floor division). -/
def daysFromCivil (y m d : Int) : Int :=
  let y2 := if m ≤ 2 then y - 1 else y
  let era := y2 / 400
  let yoe := y2 - era * 400
  let mp := if m ≤ 2 then m + 9 else m - 3
  let doy := (153 * mp + 2) / 5 + d - 1
  let doe := yoe * 365 + yoe / 4 - yoe / 100 + doy
  era * 146097 + doe - 719468

/-- `datetime.weekday()`: 0 = Monday, …, 6 = Sunday.  Day 0 = 1970-01-01
was a Thursday. -/
def pyWeekday (days : Int) : Int := (days + 3) % 7


/-- A `datetime` value: days since epoch and second of day. -/
structure PyDateTime where
  days : Int
  sod : Int
  deriving DecidableEq, Repr

/-- `datetime` comparison: lexicographic on (date, time of day). -/
def PyDateTime.le (a b : PyDateTime) : Bool :=
  a.days < b.days ∨ (a.days = b.days ∧ a.sod ≤ b.sod)

/-! ## The Budget Evaluator (`calculate_weekly_spend`,
src/services.py lines 213-292)

The worksheet state is the list of rows of `get_all_values()`, each row a
list of cell strings.  `now` is a parameter.  The float `percentage` field
of the source's result is omitted from the model; no claim concerns it. -/

def WEEKLY_LIMIT : Int := 700000

/-- `int(cell) if cell else 0`: an empty cell is 0, a non-numeric cell is a
`ValueError` (which the source's `except` turns into skipping the row). -/
def cellInt (s : String) : Option Int :=
  if s = "" then some 0 else pyInt s

/-- Contribution of one sheet row to the weekly total: 0 for short rows,
rows whose day/month/year/amount cells fail to parse, rows whose date is
not a valid `datetime`, and rows outside the Monday–Sunday window —
exactly the `continue` paths of the source's loop. -/
def rowContribution (monday sunday : PyDateTime) (row : List String) : Int :=
  if row.length < 7 then 0
  else
    match cellInt (row.getD 1 ""), cellInt (row.getD 2 ""),
        cellInt (row.getD 3 ""), cellInt (row.getD 6 "") with
    | some d, some mo, some yr, some amt =>
      if ymdValid yr mo d then
        let rowDate : PyDateTime := ⟨daysFromCivil yr mo d, 0⟩
        if monday.le rowDate ∧ rowDate.le sunday then amt else 0
      else 0
    | _, _, _, _ => 0

structure WeeklyResult where
  total : Int
  remaining : Int
  monday : PyDateTime
  sunday : PyDateTime
  deriving DecidableEq, Repr

/-- `calculate_weekly_spend` (src/services.py): Monday 00:00:00 of `now`'s
week (`now - timedelta(days=now.weekday())` at midnight) through Sunday
23:59:59 (`monday + 6` days), summing the amounts of the data rows dated in
that window; `remaining = WEEKLY_LIMIT - total` in both branches. -/
def calculate_weekly_spend (now : PyDateTime) (allData : List (List String)) : WeeklyResult :=
  if allData.length ≤ 1 then
    ⟨0, WEEKLY_LIMIT, ⟨now.days - pyWeekday now.days, 0⟩,
      ⟨now.days - pyWeekday now.days + 6, 86399⟩⟩
  else
    ⟨((allData.drop 1).map (rowContribution ⟨now.days - pyWeekday now.days, 0⟩
        ⟨now.days - pyWeekday now.days + 6, 86399⟩)).sum,
      WEEKLY_LIMIT - ((allData.drop 1).map (rowContribution ⟨now.days - pyWeekday now.days, 0⟩
        ⟨now.days - pyWeekday now.days + 6, 86399⟩)).sum,
      ⟨now.days - pyWeekday now.days, 0⟩,
      ⟨now.days - pyWeekday now.days + 6, 86399⟩⟩

/-- Thousands separator, working on the reversed digit list: insert a comma
after every three digits counted from the right. -/
def commaGroupRev : Chars → Chars
  | d1 :: d2 :: d3 :: d4 :: rest => d1 :: d2 :: d3 :: ',' :: commaGroupRev (d4 :: rest)
  | ds => ds

/-- Python's `f"{n:,}"` for the non-negative quantities the reply
interpolates. -/
def fmtComma (n : Int) : String :=
  String.mk (commaGroupRev (toString n.toNat).data.reverse).reverse


/-- The budget line appended to the expense reply by `handle_text_fallback`
(src/bot.py lines 3126-3133): the `BÁO ĐỘNG` over-budget warning when
`remaining < 0`, otherwise the remaining balance. -/
def budgetStatusSuffix (remaining : Int) : Chars :=
  if remaining < 0 then
    "\n⚠️ **BÁO ĐỘNG:** Bạn đã tiêu lố ".data ++ (fmtComma (-remaining)).data
      ++ "đ so với định mức tuần!".data
  else
    " (Còn dư: ".data ++ (fmtComma remaining).data ++ "đ)".data

/-! ## Persistence (`save_expenses_to_sheet`, src/services.py lines 123-210) -/

/-- Zero-padded decimal rendering, for `strftime('%Y-%m-%d %H:%M:%S')`. -/
def padNum (width : Nat) (n : Int) : String :=
  let s := toString n.toNat
  String.mk (List.replicate (width - s.length) '0') ++ s

/-- `datetime(year, month, day, 12, 0, 0).strftime('%Y-%m-%d %H:%M:%S')`. -/
def fmtNoon (y m d : Int) : String :=
  padNum 4 y ++ "-" ++ padNum 2 m ++ "-" ++ padNum 2 d ++ " 12:00:00"

/-- The current-time defaults taken from `datetime.now()` at the start of
`save_expenses_to_sheet`. -/
structure NowInfo where
  fullTime : String
  day : Int
  month : Int
  year : Int

/-- One appended sheet row
`[Full Time, Ngày, Tháng, Năm, Tên món, Phân loại, Số tiền]`. -/
structure SheetRow where
  fullTime : String
  day : Int
  month : Int
  year : Int
  item : String
  category : String
  amount : Int
  deriving DecidableEq, Repr

/-- The backdate parse of `save_expenses_to_sheet`: split on `'/'`, require
exactly three integer parts forming a valid `datetime` — every failure
(`len != 3`, `int()` raising, `datetime` raising) falls back to the current
date. Returns the accepted `(day, month, year)`. -/
def parseBackdate (s : String) : Option (Int × Int × Int) :=
  match List.splitOnP (fun c => c = '/') s.data with
  | [p1, p2, p3] =>
    match pyIntChars p1, pyIntChars p2, pyIntChars p3 with
    | some d, some m, some y => if ymdValid y m d then some (d, m, y) else none
    | _, _, _ => none
  | _ => none

/-- The row built for one expense: a present, non-empty, well-formed and
valid `date` yields noon of that date; anything else yields the current
date and time. -/
def sheetRowFor (now : NowInfo) (e : GroqExpense) : SheetRow :=
  match e.date? with
  | none => ⟨now.fullTime, now.day, now.month, now.year, e.item, e.category, e.amount⟩
  | some ds =>
    if ds = "" then ⟨now.fullTime, now.day, now.month, now.year, e.item, e.category, e.amount⟩
    else
      match parseBackdate ds with
      | some (d, m, y) => ⟨fmtNoon y m d, d, m, y, e.item, e.category, e.amount⟩
      | none => ⟨now.fullTime, now.day, now.month, now.year, e.item, e.category, e.amount⟩

/-- `save_expenses_to_sheet`: append one row per expense (the worksheet
write itself is I/O and outside the model; the function never fails on a
malformed date). -/
def save_expenses_to_sheet (now : NowInfo) (expenses : List GroqExpense) : List SheetRow :=
  expenses.map (sheetRowFor now)

/-! ## Evaluation sanity checks -/

example : parse_amount "phở 50k".data = (50000, [⟨50000, 4, 7⟩]) := by decide
example : (parse_amount "0k".data).1 = 0 := by decide
example : auto_categorize "phở bò".data = "Ăn uống" := by decide
example : auto_categorize "tiền điện".data = "Di chuyển" := by decide
example : auto_categorize "qqq".data = "Khác" := by decide
example :
    parse_multiple_items "an trua 35k, hom nay vui, cafe 25k".data =
      .ok [⟨"trua".data, 35000, "Khác"⟩, ⟨"cafe".data, 25000, "Ăn uống"⟩] := by rfl
example :
    validateGroqItem ⟨some "phở", some (.int 50000), some "Ăn uống", none⟩ =
      some ⟨"phở", 50000, "Ăn uống", none⟩ := by rfl
example : validateGroqItem ⟨some "phở", some (.int 0), some "Ăn uống", none⟩ = none := by rfl
example : daysFromCivil 1970 1 1 = 0 := by decide
example : daysFromCivil 2025 1 6 = 20094 := by decide
example : pyWeekday (daysFromCivil 2025 1 6) = 0 := by decide
example : fmtComma 750000 = "750,000" := by decide
example : fmtComma 50000 = "50,000" := by decide

/-! ## Helper lemmas -/

theorem mem_insertDescBy {α : Type} (key : α → Nat) (x : α) (l : List α) (a : α) :
    a ∈ insertDescBy key x l ↔ a = x ∨ a ∈ l := by
  induction l with
  | nil => simp [insertDescBy]
  | cons y ys ih =>
    simp only [insertDescBy]
    by_cases h : key y ≤ key x
    · simp [h]
    · simp only [if_neg h, List.mem_cons, ih]
      tauto

theorem pairwise_insertDescBy {α : Type} (key : α → Nat) (x : α) (l : List α)
    (h : l.Pairwise (fun a b => key b ≤ key a)) :
    (insertDescBy key x l).Pairwise (fun a b => key b ≤ key a) := by
  induction l with
  | nil => simp [insertDescBy]
  | cons y ys ih =>
    rw [List.pairwise_cons] at h
    simp only [insertDescBy]
    by_cases hy : key y ≤ key x
    · rw [if_pos hy, List.pairwise_cons]
      refine ⟨fun b hb => ?_, List.pairwise_cons.mpr h⟩
      rcases List.mem_cons.mp hb with rfl | hb
      · exact hy
      · exact le_trans (h.1 b hb) hy
    · rw [if_neg hy, List.pairwise_cons]
      refine ⟨fun b hb => ?_, ih h.2⟩
      rcases (mem_insertDescBy key x ys b).mp hb with rfl | hb
      · omega
      · exact h.1 b hb

theorem mem_sortDescBy {α : Type} (key : α → Nat) (l : List α) (a : α) :
    a ∈ sortDescBy key l ↔ a ∈ l := by
  induction l with
  | nil => simp [sortDescBy]
  | cons y ys ih =>
    show a ∈ insertDescBy key y (sortDescBy key ys) ↔ _
    rw [mem_insertDescBy, ih, List.mem_cons]

theorem pairwise_sortDescBy {α : Type} (key : α → Nat) (l : List α) :
    (sortDescBy key l).Pairwise (fun a b => key b ≤ key a) := by
  induction l with
  | nil => exact List.Pairwise.nil
  | cons y ys ih => exact pairwise_insertDescBy key y _ ih

theorem sortDescBy_ne_nil {α : Type} (key : α → Nat) (l : List α) (h : l ≠ []) :
    sortDescBy key l ≠ [] := by
  cases l with
  | nil => exact absurd rfl h
  | cons y ys =>
    intro hnil
    have : y ∈ sortDescBy key (y :: ys) := (mem_sortDescBy key _ y).mpr (List.mem_cons_self y ys)
    rw [hnil] at this
    exact List.not_mem_nil y this

/-- A successful match implies the position is inside the text: every
matcher requires a non-empty digit run at its start position. -/
theorem matcher_isSome_lt (p : Pat) (t : Chars) (i : Nat)
    (h : (p.matcher t i).isSome) : i < t.length := by
  by_contra hge
  have hdrop : t.drop i = [] := List.drop_eq_nil_of_le (Nat.le_of_not_lt hge)
  have hrun : digitRunAt t i = [] := by simp [digitRunAt, hdrop]
  cases p with
  | numSuffix req opt mult =>
    simp [Pat.matcher, matchNumSuffix, hrun] at h
  | zeros3 =>
    simp [Pat.matcher, match000, hrun] at h
  | digits4 =>
    simp [Pat.matcher, matchD4, hrun] at h

/-- If some position at or after `i` matches, the scan from `i` emits at
least one candidate. -/
theorem findIterGo_ne_nil (p : Pat) (t : Chars) (fuel i j : Nat)
    (hij : i ≤ j) (hj : (p.matcher t j).isSome)
    (hfuel : t.length + 1 - i ≤ fuel) : findIterGo p t fuel i ≠ [] := by
  induction fuel generalizing i with
  | zero =>
    have := matcher_isSome_lt p t j hj
    omega
  | succ fuel ih =>
    have hjlt := matcher_isSome_lt p t j hj
    have hile : ¬ t.length < i := by omega
    rw [findIterGo, if_neg hile]
    cases hm : p.matcher t i with
    | some r =>
      obtain ⟨d, fr, stop⟩ := r
      simp
    | none =>
      have hij2 : i + 1 ≤ j := by
        rcases Nat.lt_or_ge i j with h1 | h1
        · omega
        · have : i = j := by omega
          rw [this] at hm
          rw [hm] at hj
          simp at hj
      exact ih (i + 1) hij2 (by omega)

theorem findIter_ne_nil (p : Pat) (t : Chars) (j : Nat)
    (hj : (p.matcher t j).isSome) : findIter p t ≠ [] :=
  findIterGo_ne_nil p t (t.length + 1) 0 j (Nat.zero_le j) hj (by omega)

theorem flatMap_ne_nil {α β : Type} (f : α → List β) (l : List α) (a : α)
    (ha : a ∈ l) (hf : f a ≠ []) : l.flatMap f ≠ [] := by
  induction l with
  | nil => exact absurd ha (List.not_mem_nil a)
  | cons x xs ih =>
    rw [List.flatMap_cons]
    rcases List.mem_cons.mp ha with rfl | hx
    · intro h
      exact hf (List.append_eq_nil.mp h).1
    · intro h
      exact ih hx (List.append_eq_nil.mp h).2

/-- Generic characterization of the classifier loop: the result is the
first table entry with a keyword hit, defaulting to `"Khác"`. -/
theorem autoCategorizeGo_eq_find (low : Chars) (l : List (String × List String)) :
    autoCategorizeGo low l = ((l.find? (keywordHit low)).map Prod.fst).getD "Khác" := by
  induction l with
  | nil => rfl
  | cons entry rest ih =>
    rw [autoCategorizeGo, List.find?_cons]
    cases h : keywordHit low entry with
    | true => simp [h]
    | false => simp [h, ih]

/-- The classifier only ever returns one of the four categories. -/
theorem auto_categorize_mem (s : Chars) : auto_categorize s ∈ CATEGORIES := by
  rw [auto_categorize, autoCategorizeGo_eq_find]
  cases hf : (CATEGORY_KEYWORDS.find? (keywordHit (s.map pyLower))) with
  | none => decide
  | some entry =>
    have hmem := List.mem_of_find?_eq_some hf
    fin_cases hmem <;> decide

/-- The `ok` branch of `parse_multiple_items` is exactly the clause-wise
`filterMap`, and it is never empty. -/
theorem parse_multiple_items_ok_eq (t : Chars) (l : List Item)
    (h : parse_multiple_items t = .ok l) :
    l = (splitClauses t).filterMap parse_single_item ∧ l ≠ [] := by
  rw [parse_multiple_items] at h
  by_cases hnil : (splitClauses t).filterMap parse_single_item = []
  · rw [if_pos hnil] at h
    exact absurd h (by simp)
  · rw [if_neg hnil] at h
    cases h
    exact ⟨rfl, hnil⟩

/-! ## The claims -/

/-- C1: whenever `parse_amount` finds more than one amount candidate, the
amount it returns is the largest candidate value among all candidates found
by all patterns — every candidate's value is bounded by the returned amount,
and the returned amount is attained by some candidate. -/
theorem parse_amount_returns_max_candidate (t : Chars)
    (h : 1 < (parse_amount t).2.length) :
    (∀ c ∈ allCandidates t, c.amount ≤ (parse_amount t).1) ∧
    (∃ c ∈ allCandidates t, c.amount = (parse_amount t).1) := by
  have hne : allCandidates t ≠ [] := by
    intro hnil
    rw [parse_amount, hnil] at h
    simp at h
  have hpa : parse_amount t =
      ((sortDescBy Candidate.amount (allCandidates t)).headD ⟨0, 0, 0⟩ |>.amount,
        sortDescBy Candidate.amount (allCandidates t)) := by
    rw [parse_amount, if_neg hne]
  cases hs : sortDescBy Candidate.amount (allCandidates t) with
  | nil => exact absurd hs (sortDescBy_ne_nil _ _ hne)
  | cons s ss =>
    have hfst : (parse_amount t).1 = s.amount := by rw [hpa, hs]; rfl
    have hpw := pairwise_sortDescBy Candidate.amount (allCandidates t)
    rw [hs, List.pairwise_cons] at hpw
    constructor
    · intro c hc
      have hcs : c ∈ s :: ss := by
        rw [← hs, mem_sortDescBy]
        exact hc
      rw [hfst]
      rcases List.mem_cons.mp hcs with rfl | hcss
      · exact le_refl _
      · exact hpw.1 c hcss
    · refine ⟨s, ?_, hfst.symm⟩
      rw [← mem_sortDescBy Candidate.amount _ s, hs]
      exact List.mem_cons_self s ss

/-- C1 witness: `"50k 5000"` yields three candidates (50000, 5, 5000) and
the returned amount 50000 bounds and is attained by them. -/
theorem parse_amount_returns_max_candidate_witness :
    1 < (parse_amount "50k 5000".data).2.length ∧
    ((∀ c ∈ allCandidates "50k 5000".data, c.amount ≤ (parse_amount "50k 5000".data).1) ∧
      (∃ c ∈ allCandidates "50k 5000".data, c.amount = (parse_amount "50k 5000".data).1)) :=
  ⟨by decide, parse_amount_returns_max_candidate "50k 5000".data (by decide)⟩

/-- C8, counterexample: the text `"0k"` contains a recognizable amount
pattern (`(\d+(?:\.\d+)?)\s*k(?:ilo)?` matches at position 0), yet the
single candidate `parse_amount` returns for it has value 0, which is not a
positive integer. -/
theorem parse_amount_zero_candidate_cex :
    (Pat.numSuffix "k".data "ilo".data 1000 ∈ patterns) ∧
    ((Pat.numSuffix "k".data "ilo".data 1000).matcher ("0k".data.map pyLower) 0).isSome ∧
    (∃ c ∈ (parse_amount "0k".data).2, ¬ 0 < c.amount) := by
  refine ⟨by decide, by decide, ⟨⟨0, 0, 2⟩, by decide, by decide⟩⟩

/-- C8, amended: for all text in which some pattern of the table matches at
some position, `parse_amount` returns a non-empty candidate set, and every
returned candidate value is a non-negative integer (zero occurs exactly when
the matched numeral times the multiplier is below 1, e.g. `"0k"`). -/
theorem parse_amount_nonempty_nonneg (t : Chars)
    (h : ∃ p ∈ patterns, ∃ i, (p.matcher (t.map pyLower) i).isSome) :
    (parse_amount t).2 ≠ [] ∧ ∀ c ∈ (parse_amount t).2, 0 ≤ c.amount := by
  obtain ⟨p, hp, i, hi⟩ := h
  have hfind : findIter p (t.map pyLower) ≠ [] := findIter_ne_nil p _ i hi
  have hne : allCandidates t ≠ [] := flatMap_ne_nil _ patterns p hp hfind
  constructor
  · rw [parse_amount, if_neg hne]
    exact sortDescBy_ne_nil _ _ hne
  · intro c _
    exact Nat.zero_le c.amount

/-- C8 witness: `"phở 50k"` matches the `k` pattern at position 4, and the
amended conclusion holds there. -/
theorem parse_amount_nonempty_nonneg_witness :
    (parse_amount "phở 50k".data).2 ≠ [] ∧
    ∀ c ∈ (parse_amount "phở 50k".data).2, 0 ≤ c.amount :=
  parse_amount_nonempty_nonneg "phở 50k".data
    ⟨Pat.numSuffix "k".data "ilo".data 1000, by decide, 4, by decide⟩

/-- C9: the Category Classifier is a pure function of its argument (it is a
Lean function of the item name alone, so re-running it on the same string
definitionally returns the same category), and it is characterized as:
lowercase the name, find the first entry of the fixed keyword table one of
whose keywords occurs as a contiguous substring, return its category, and
return `"Khác"` when no keyword of any entry matches. -/
theorem auto_categorize_first_match_characterization (s : Chars) :
    auto_categorize s =
      ((CATEGORY_KEYWORDS.find? (keywordHit (s.map pyLower))).map Prod.fst).getD "Khác" :=
  autoCategorizeGo_eq_find (s.map pyLower) CATEGORY_KEYWORDS

/-- C2: `parse_multiple_items` returns exactly the records of the clauses
that parse, drops failing clauses, errors iff every clause fails, and never
returns an empty list as a success. -/
theorem parse_multiple_items_partial_success (t : Chars) :
    ((∀ c ∈ splitClauses t, parse_single_item c = none) →
      parse_multiple_items t = .error "Không tìm thấy món hợp lệ nào trong tin nhắn") ∧
    ((∃ c ∈ splitClauses t, (parse_single_item c).isSome) →
      parse_multiple_items t = .ok ((splitClauses t).filterMap parse_single_item) ∧
        (splitClauses t).filterMap parse_single_item ≠ []) ∧
    (∀ l, parse_multiple_items t = .ok l →
      l = (splitClauses t).filterMap parse_single_item ∧ l ≠ []) := by
  refine ⟨?_, ?_, parse_multiple_items_ok_eq t⟩
  · intro hall
    have hnil : (splitClauses t).filterMap parse_single_item = [] :=
      List.filterMap_eq_nil_iff.mpr hall
    rw [parse_multiple_items, if_pos hnil]
  · intro hex
    have hnnil : (splitClauses t).filterMap parse_single_item ≠ [] := by
      intro hnil
      obtain ⟨c, hc, hsome⟩ := hex
      rw [List.filterMap_eq_nil_iff.mp hnil c hc] at hsome
      simp at hsome
    rw [parse_multiple_items, if_neg hnnil]
    exact ⟨rfl, hnnil⟩

/-- C2 witness: a 3-clause message whose middle clause has no amount yields
exactly the 2 records of the valid clauses; a message with no amount in any
clause yields the error. -/
theorem parse_multiple_items_partial_success_witness :
    (parse_multiple_items "an trua 35k, hom nay vui, cafe 25k".data =
      .ok ((splitClauses "an trua 35k, hom nay vui, cafe 25k".data).filterMap
        parse_single_item) ∧
      (splitClauses "an trua 35k, hom nay vui, cafe 25k".data).filterMap
        parse_single_item ≠ []) ∧
    ((splitClauses "an trua 35k, hom nay vui, cafe 25k".data).filterMap
        parse_single_item).length = 2 ∧
    parse_multiple_items "hôm nay vui, chào bạn".data =
      .error "Không tìm thấy món hợp lệ nào trong tin nhắn" :=
  ⟨(parse_multiple_items_partial_success _).2.1
      ⟨"an trua 35k".data, by decide, by decide⟩,
    by decide,
    (parse_multiple_items_partial_success _).1 (by decide)⟩

/-- Shared property of the Tier-1 per-item validator: a surviving item has a
positive amount and a category inside the fixed enumeration. -/
theorem validateGroqItem_some_props (it : GroqItem) (e : GroqExpense)
    (h : validateGroqItem it = some e) :
    0 < e.amount ∧ e.category ∈ CATEGORIES := by
  rw [validateGroqItem] at h
  rcases hit : it.item? with _ | itemVal <;> rw [hit] at h
  · exact Option.noConfusion h
  rcases hamt : it.amount? with _ | amtVal <;> rw [hamt] at h
  · exact Option.noConfusion h
  simp only [] at h
  cases htoi : amtVal.toInt with
  | none => rw [htoi] at h; exact Option.noConfusion h
  | some amount =>
    rw [htoi] at h
    dsimp only at h
    by_cases hle : amount ≤ 0
    · rw [if_pos hle] at h
      exact Option.noConfusion h
    · rw [if_neg hle] at h
      cases h
      constructor
      · show 0 < amount
        omega
      · show (if it.category?.getD "Khác" ∈ CATEGORIES then it.category?.getD "Khác"
            else "Khác") ∈ CATEGORIES
        by_cases hcat : it.category?.getD "Khác" ∈ CATEGORIES
        · rwa [if_pos hcat]
        · rw [if_neg hcat]
          decide

/-- C4: every record produced by either tier — `parse_single_item`,
`parse_multiple_items` (Tier 2), or the expense branch of `parse_with_groq`
(Tier 1) — has a positive amount and a category among the four fixed
categories. -/
theorem records_positive_amount_fixed_category :
    (∀ t r, parse_single_item t = some r → 0 < r.amount ∧ r.category ∈ CATEGORIES) ∧
    (∀ t l, parse_multiple_items t = .ok l →
      ∀ r ∈ l, 0 < r.amount ∧ r.category ∈ CATEGORIES) ∧
    (∀ items l, parse_with_groq_expenses items = .ok l →
      ∀ e ∈ l, 0 < e.amount ∧ e.category ∈ CATEGORIES) := by
  have hsingle : ∀ t r, parse_single_item t = some r →
      0 < r.amount ∧ r.category ∈ CATEGORIES := by
    intro t r h
    rw [parse_single_item] at h
    generalize parse_amount t = pa at h
    generalize extract_item_name t pa.2 = nm at h
    generalize hcat : auto_categorize nm = cat at h
    by_cases h0 : pa.1 = 0
    · rw [if_pos h0] at h
      exact Option.noConfusion h
    · rw [if_neg h0] at h
      cases h
      refine ⟨Nat.pos_of_ne_zero h0, ?_⟩
      show cat ∈ CATEGORIES
      rw [← hcat]
      exact auto_categorize_mem nm
  refine ⟨hsingle, ?_, ?_⟩
  · intro t l hok r hr
    obtain ⟨hl, _⟩ := parse_multiple_items_ok_eq t l hok
    rw [hl] at hr
    obtain ⟨c, _, hc⟩ := List.mem_filterMap.mp hr
    exact hsingle c r hc
  · intro items l hok e he
    rw [parse_with_groq_expenses] at hok
    by_cases hnil : items.filterMap validateGroqItem = []
    · rw [if_pos hnil] at hok
      exact absurd hok (by simp)
    · rw [if_neg hnil] at hok
      cases hok
      obtain ⟨it, _, hit⟩ := List.mem_filterMap.mp he
      exact validateGroqItem_some_props it e hit

/-- C4 witness: concrete records of both tiers satisfy the bounds. -/
theorem records_positive_amount_fixed_category_witness :
    (0 < (⟨"phở".data, 50000, "Ăn uống"⟩ : Item).amount ∧
      (⟨"phở".data, 50000, "Ăn uống"⟩ : Item).category ∈ CATEGORIES) ∧
    (0 < (⟨"trà sữa", 30000, "Khác", none⟩ : GroqExpense).amount ∧
      (⟨"trà sữa", 30000, "Khác", none⟩ : GroqExpense).category ∈ CATEGORIES) :=
  ⟨(records_positive_amount_fixed_category).1 "phở 50k".data ⟨"phở".data, 50000, "Ăn uống"⟩
      (by decide),
    (records_positive_amount_fixed_category).2.2
      [⟨some "trà sữa", some (.int 30000), some "bậy bạ", none⟩]
      [⟨"trà sữa", 30000, "Khác", none⟩] (by rfl)
      ⟨"trà sữa", 30000, "Khác", none⟩ (by decide)⟩

/-- C3, counterexample: a Tier-1 reply item carrying an EMPTY `item` string
and a positive integer amount is NOT dropped by the validator — it is kept
with its name replaced by the sentinel `"Không xác định"` — even though the
claim says every item without a non-empty item string is dropped. -/
theorem groq_validator_keeps_empty_item_name_cex :
    validateGroqItem ⟨some "", some (.int 5000), some "Ăn uống", none⟩ ≠ none ∧
    validateGroqItem ⟨some "", some (.int 5000), some "Ăn uống", none⟩ =
      some ⟨"Không xác định", 5000, "Ăn uống", none⟩ := by
  exact ⟨by decide, by rfl⟩

/-- C3, amended: the validator drops individually each item missing the
`item` or `amount` key, or whose amount fails integer conversion or is not
positive; an item whose `item` string strips to empty is KEPT with the
sentinel name `"Không xác định"`; a claimed category outside the fixed enum
is forced to `"Khác"`; and when the filtered list is empty the call raises
a hard failure — it never returns an expense result with an empty list. -/
theorem groq_validator_amended :
    (∀ items l, parse_with_groq_expenses items = .ok l →
      l ≠ [] ∧ l = items.filterMap validateGroqItem) ∧
    (∀ items, parse_with_groq_expenses items = .error "Groq trả về list expenses rỗng" ↔
      ∀ it ∈ items, validateGroqItem it = none) ∧
    (∀ it : GroqItem, it.item? = none ∨ it.amount? = none → validateGroqItem it = none) ∧
    (∀ it : GroqItem, ∀ a, it.amount? = some a → a.toInt = none →
      validateGroqItem it = none) ∧
    (∀ it : GroqItem, ∀ a n, it.amount? = some a → a.toInt = some n → n ≤ 0 →
      validateGroqItem it = none) ∧
    (∀ it : GroqItem, ∀ c, it.category? = some c → c ∉ CATEGORIES →
      ∀ e, validateGroqItem it = some e → e.category = "Khác") ∧
    (∀ it : GroqItem, ∀ s, it.item? = some s → String.mk (pyStrip s.data) = "" →
      ∀ e, validateGroqItem it = some e → e.item = "Không xác định") := by
  refine ⟨?_, ?_, ?_, ?_, ?_, ?_, ?_⟩
  · intro items l hok
    rw [parse_with_groq_expenses] at hok
    by_cases hnil : items.filterMap validateGroqItem = []
    · rw [if_pos hnil] at hok
      exact absurd hok (by simp)
    · rw [if_neg hnil] at hok
      cases hok
      exact ⟨hnil, rfl⟩
  · intro items
    rw [parse_with_groq_expenses]
    by_cases hnil : items.filterMap validateGroqItem = []
    · rw [if_pos hnil]
      constructor
      · intro _
        exact List.filterMap_eq_nil_iff.mp hnil
      · intro _
        rfl
    · rw [if_neg hnil]
      constructor
      · intro h
        exact absurd h (by simp)
      · intro hall
        exact absurd (List.filterMap_eq_nil_iff.mpr hall) hnil
  · intro it h
    rw [validateGroqItem]
    rcases h with h | h
    · rw [h]
    · rw [h]
      rcases hi : it.item? with _ | v <;> rfl
  · intro it a hamt htoi
    rw [validateGroqItem, hamt]
    rcases hit : it.item? with _ | itemVal
    · rfl
    · dsimp only
      rw [htoi]
  · intro it a n hamt htoi hle
    rw [validateGroqItem, hamt]
    rcases hit : it.item? with _ | itemVal
    · rfl
    · dsimp only
      rw [htoi]
      dsimp only
      rw [if_pos hle]
  · intro it c hcat hnotmem e h
    rw [validateGroqItem] at h
    rcases hit : it.item? with _ | itemVal <;> rw [hit] at h
    · exact Option.noConfusion h
    rcases hamt : it.amount? with _ | amtVal <;> rw [hamt] at h
    · exact Option.noConfusion h
    dsimp only at h
    cases htoi : amtVal.toInt with
    | none => rw [htoi] at h; exact Option.noConfusion h
    | some amount =>
      rw [htoi] at h
      dsimp only at h
      by_cases hle : amount ≤ 0
      · rw [if_pos hle] at h
        exact Option.noConfusion h
      · rw [if_neg hle] at h
        cases h
        show (if it.category?.getD "Khác" ∈ CATEGORIES then it.category?.getD "Khác"
            else "Khác") = "Khác"
        rw [hcat]
        simp only [Option.getD_some]
        rw [if_neg hnotmem]
  · intro it s hit hempty e h
    rw [validateGroqItem, hit] at h
    rcases hamt : it.amount? with _ | amtVal <;> rw [hamt] at h
    · exact Option.noConfusion h
    dsimp only at h
    cases htoi : amtVal.toInt with
    | none => rw [htoi] at h; exact Option.noConfusion h
    | some amount =>
      rw [htoi] at h
      dsimp only at h
      by_cases hle : amount ≤ 0
      · rw [if_pos hle] at h
        exact Option.noConfusion h
      · rw [if_neg hle] at h
        cases h
        show (if String.mk (pyStrip s.data) = "" ∨ String.mk (pyStrip s.data) = "Chưa rõ"
            then "Không xác định" else String.mk (pyStrip s.data)) = "Không xác định"
        rw [if_pos (Or.inl hempty)]

/-- C3 amended witness: a two-item reply where one item lacks an amount
drops only that item, keeps the other (with out-of-enum category forced to
`"Khác"`), and the call succeeds with a non-empty list; moreover a reply of
only invalid items errors. -/
theorem groq_validator_amended_witness :
    ([⟨"cơm", 30000, "Khác", none⟩] : List GroqExpense) ≠ [] ∧
    ([⟨"cơm", 30000, "Khác", none⟩] : List GroqExpense) =
      ([⟨some "cơm", some (.int 30000), some "Linh tinh", none⟩,
        ⟨some "bánh", none, some "Ăn uống", none⟩] : List GroqItem).filterMap
        validateGroqItem ∧
    validateGroqItem ⟨some "bánh", none, some "Ăn uống", none⟩ = none ∧
    (parse_with_groq_expenses [⟨some "bánh", none, some "Ăn uống", none⟩] =
      .error "Groq trả về list expenses rỗng" ↔
      ∀ it ∈ [(⟨some "bánh", none, some "Ăn uống", none⟩ : GroqItem)],
        validateGroqItem it = none) :=
  ⟨((groq_validator_amended).1
      [⟨some "cơm", some (.int 30000), some "Linh tinh", none⟩,
        ⟨some "bánh", none, some "Ăn uống", none⟩]
      [⟨"cơm", 30000, "Khác", none⟩] (by rfl)).1,
    ((groq_validator_amended).1
      [⟨some "cơm", some (.int 30000), some "Linh tinh", none⟩,
        ⟨some "bánh", none, some "Ăn uống", none⟩]
      [⟨"cơm", 30000, "Khác", none⟩] (by rfl)).2,
    (groq_validator_amended).2.2.1 ⟨some "bánh", none, some "Ăn uống", none⟩ (Or.inr rfl),
    (groq_validator_amended).2.1 [⟨some "bánh", none, some "Ăn uống", none⟩]⟩

/-- C7, counterexample: with text `"mua 5000 ;;"` and the single matched
span (5000, 4, 8), the remainder in the CLAIM's sense (spans, stopwords,
digits and punctuation removed) is empty — shorter than 2 characters — so
the claim requires the extractor to fall back to the text before the
earliest span, which cleans to `"mua"`.  The code instead tests the length
BEFORE removing punctuation (the remainder `";;"` has length 2), takes no
fallback, and returns the sentinel `"Không xác định"`. -/
theorem extract_item_name_punct_condition_cex :
    (specCleanedRemainder "mua 5000 ;;".data [⟨5000, 4, 8⟩]).length < 2 ∧
    finalClean (pyStrip ("mua 5000 ;;".data.take
      (minStart [⟨5000, 4, 8⟩]))) = "mua".data ∧
    extract_item_name "mua 5000 ;;".data [⟨5000, 4, 8⟩] = "Không xác định".data ∧
    extract_item_name "mua 5000 ;;".data [⟨5000, 4, 8⟩] ≠ "mua".data := by
  refine ⟨by decide, by decide, by decide, by decide⟩

/-- C7, amended: when the remainder after removing spans, stopwords and
digits — punctuation not yet removed — is shorter than 2 characters and
there is at least one span, `extract_item_name` takes the text before the
earliest span instead, applies the punctuation scrub to it, and returns the
sentinel `"Không xác định"` when the result is empty. -/
theorem extract_item_name_short_remainder_fallback (t : Chars)
    (ps : List Candidate) (hne : ps ≠ []) (h : (preRemainder t ps).length < 2) :
    extract_item_name t ps =
      (if finalClean (pyStrip (t.take (minStart ps))) = [] then "Không xác định".data
       else finalClean (pyStrip (t.take (minStart ps)))) := by
  have hcore : itemNameCore t ps = pyStrip (t.take (minStart ps)) := by
    rw [itemNameCore, if_pos h, if_pos hne]
  rw [extract_item_name, hcore]

/-- C7 witness: `"ăn 5k"` with span (5000, 3, 5): the pre-punctuation
remainder is empty (the stop-word `ăn` is removed), so the extractor falls
back to the text before the span and returns `"ăn"`. -/
theorem extract_item_name_short_remainder_fallback_witness :
    (preRemainder "ăn 5k".data [⟨5000, 3, 5⟩]).length < 2 ∧
    extract_item_name "ăn 5k".data [⟨5000, 3, 5⟩] =
      (if finalClean (pyStrip ("ăn 5k".data.take (minStart [⟨5000, 3, 5⟩]))) = []
       then "Không xác định".data
       else finalClean (pyStrip ("ăn 5k".data.take (minStart [⟨5000, 3, 5⟩])))) :=
  ⟨by decide,
    extract_item_name_short_remainder_fallback "ăn 5k".data [⟨5000, 3, 5⟩]
      (by decide) (by decide)⟩

/-- C5: the Budget Evaluator always returns
`remaining = weeklyLimit (700000) - total` with no clamping (over-spending
makes it negative), over a Monday-to-Sunday window containing `now`
(`sunday = monday + 6` days, `monday` is a Monday, and `now` lies in the
window); and whenever `remaining < 0` the budget line of the expense reply
carries the `BÁO ĐỘNG` over-budget warning. -/
theorem weekly_budget_no_clamping :
    (∀ (now : PyDateTime) (allData : List (List String)),
      (calculate_weekly_spend now allData).remaining =
        WEEKLY_LIMIT - (calculate_weekly_spend now allData).total ∧
      (calculate_weekly_spend now allData).sunday.days =
        (calculate_weekly_spend now allData).monday.days + 6 ∧
      pyWeekday (calculate_weekly_spend now allData).monday.days = 0 ∧
      (calculate_weekly_spend now allData).monday.days ≤ now.days ∧
      now.days ≤ (calculate_weekly_spend now allData).monday.days + 6 ∧
      (WEEKLY_LIMIT < (calculate_weekly_spend now allData).total →
        (calculate_weekly_spend now allData).remaining < 0)) ∧
    (∀ remaining : Int, remaining < 0 →
      SubOf "BÁO ĐỘNG".data (budgetStatusSuffix remaining)) := by
  constructor
  · intro now allData
    have hfields :
        (calculate_weekly_spend now allData).monday =
          ⟨now.days - pyWeekday now.days, 0⟩ ∧
        (calculate_weekly_spend now allData).sunday =
          ⟨now.days - pyWeekday now.days + 6, 86399⟩ ∧
        (calculate_weekly_spend now allData).remaining =
          WEEKLY_LIMIT - (calculate_weekly_spend now allData).total := by
      rw [calculate_weekly_spend]
      by_cases hlen : allData.length ≤ 1
      · rw [if_pos hlen]
        refine ⟨rfl, rfl, ?_⟩
        show WEEKLY_LIMIT = WEEKLY_LIMIT - 0
        decide
      · rw [if_neg hlen]
        exact ⟨rfl, rfl, rfl⟩
    obtain ⟨hmon, hsun, hrem⟩ := hfields
    refine ⟨hrem, ?_, ?_, ?_, ?_, ?_⟩
    · rw [hmon, hsun]
    · rw [hmon]
      show (now.days - (now.days + 3) % 7 + 3) % 7 = 0
      omega
    · rw [hmon]
      show now.days - (now.days + 3) % 7 ≤ now.days
      omega
    · rw [hmon]
      show now.days ≤ now.days - (now.days + 3) % 7 + 6
      omega
    · intro hover
      omega
  · intro remaining hrem
    rw [budgetStatusSuffix, if_pos hrem]
    refine ⟨"\n⚠️ **".data,
      ":** Bạn đã tiêu lố ".data ++ (fmtComma (-remaining)).data
        ++ "đ so với định mức tuần!".data, ?_⟩
    have hsplit : "\n⚠️ **BÁO ĐỘNG:** Bạn đã tiêu lố ".data =
        "\n⚠️ **".data ++ "BÁO ĐỘNG".data ++ ":** Bạn đã tiêu lố ".data := by decide
    rw [hsplit]
    simp [List.append_assoc]

/-- C5 witness: in the week of Monday 2025-01-06 (day 20094), two rows of
400000 and 350000 give total 750000 against the 700000 ceiling, remaining
-50000 (negative, unclamped), and the reply suffix carries `BÁO ĐỘNG`. -/
theorem weekly_budget_no_clamping_witness :
    calculate_weekly_spend ⟨20096, 36000⟩
        [["Full Time", "Ngày", "Tháng", "Năm", "Tên món", "Phân loại", "Số tiền"],
         ["2025-01-06 12:00:00", "6", "1", "2025", "cơm", "Ăn uống", "400000"],
         ["2025-01-07 12:00:00", "7", "1", "2025", "net", "Khác", "350000"]] =
      ⟨750000, -50000, ⟨20094, 0⟩, ⟨20100, 86399⟩⟩ ∧
    (calculate_weekly_spend ⟨20096, 36000⟩
        [["Full Time", "Ngày", "Tháng", "Năm", "Tên món", "Phân loại", "Số tiền"],
         ["2025-01-06 12:00:00", "6", "1", "2025", "cơm", "Ăn uống", "400000"],
         ["2025-01-07 12:00:00", "7", "1", "2025", "net", "Khác", "350000"]]).remaining =
      WEEKLY_LIMIT - (calculate_weekly_spend ⟨20096, 36000⟩
        [["Full Time", "Ngày", "Tháng", "Năm", "Tên món", "Phân loại", "Số tiền"],
         ["2025-01-06 12:00:00", "6", "1", "2025", "cơm", "Ăn uống", "400000"],
         ["2025-01-07 12:00:00", "7", "1", "2025", "net", "Khác", "350000"]]).total ∧
    SubOf "BÁO ĐỘNG".data (budgetStatusSuffix (-50000)) :=
  ⟨by decide,
    (weekly_budget_no_clamping.1 ⟨20096, 36000⟩
        [["Full Time", "Ngày", "Tháng", "Năm", "Tên món", "Phân loại", "Số tiền"],
         ["2025-01-06 12:00:00", "6", "1", "2025", "cơm", "Ăn uống", "400000"],
         ["2025-01-07 12:00:00", "7", "1", "2025", "net", "Khác", "350000"]]).1,
    weekly_budget_no_clamping.2 (-50000) (by decide)⟩

/-- C6: a missing, empty, malformed (not three `/`-separated integer parts)
or calendar-invalid backdate leaves the persisted row at the current date
and time, and the call does not fail (the row function is total); only a
well-formed valid date changes the persisted Day/Month/Year cells. -/
theorem malformed_backdate_defaults_to_now (now : NowInfo) (e : GroqExpense) :
    (e.date? = none →
      sheetRowFor now e =
        ⟨now.fullTime, now.day, now.month, now.year, e.item, e.category, e.amount⟩) ∧
    (∀ ds, e.date? = some ds → parseBackdate ds = none →
      sheetRowFor now e =
        ⟨now.fullTime, now.day, now.month, now.year, e.item, e.category, e.amount⟩) ∧
    (sheetRowFor now e ≠
        ⟨now.fullTime, now.day, now.month, now.year, e.item, e.category, e.amount⟩ →
      ∃ ds d m y, e.date? = some ds ∧ parseBackdate ds = some (d, m, y)) := by
  refine ⟨?_, ?_, ?_⟩
  · intro h
    rw [sheetRowFor, h]
  · intro ds h hpb
    rw [sheetRowFor, h]
    dsimp only
    by_cases hds : ds = ""
    · rw [if_pos hds]
    · rw [if_neg hds, hpb]
  · intro hne
    rcases hd : e.date? with _ | ds
    · exact absurd (by rw [sheetRowFor, hd]) hne
    · rcases hpb : parseBackdate ds with _ | ⟨d, m, y⟩
      · exfalso
        apply hne
        rw [sheetRowFor, hd]
        dsimp only
        by_cases hds : ds = ""
        · rw [if_pos hds]
        · rw [if_neg hds, hpb]
      · exact ⟨ds, d, m, y, rfl, hpb⟩

/-- C6 witness: the calendar-invalid backdate `"31/02/2025"` is treated as
absent and the record keeps the current date. -/
theorem malformed_backdate_defaults_to_now_witness :
    parseBackdate "31/02/2025" = none ∧
    sheetRowFor ⟨"2025-10-12 09:30:00", 12, 10, 2025⟩
        ⟨"áo", 200000, "Khác", some "31/02/2025"⟩ =
      ⟨"2025-10-12 09:30:00", 12, 10, 2025, "áo", "Khác", 200000⟩ :=
  ⟨by decide,
    (malformed_backdate_defaults_to_now ⟨"2025-10-12 09:30:00", 12, 10, 2025⟩
        ⟨"áo", 200000, "Khác", some "31/02/2025"⟩).2.1
      "31/02/2025" rfl (by decide)⟩

/-- C10: an expense whose backdate parses as a valid `d/m/y` is persisted
with Full Time equal to that date at 12:00:00 (noon) and the Day/Month/Year
cells equal to the parsed day, month and year. -/
theorem backdate_persists_noon (now : NowInfo) (e : GroqExpense) (ds : String)
    (d m y : Int) (h1 : e.date? = some ds) (h2 : parseBackdate ds = some (d, m, y)) :
    sheetRowFor now e = ⟨fmtNoon y m d, d, m, y, e.item, e.category, e.amount⟩ ∧
    fmtNoon y m d = padNum 4 y ++ "-" ++ padNum 2 m ++ "-" ++ padNum 2 d ++ " 12:00:00" := by
  have hds : ds ≠ "" := by
    intro hd
    have hnone : parseBackdate "" = none := by decide
    rw [hd, hnone] at h2
    exact Option.noConfusion h2
  refine ⟨?_, rfl⟩
  rw [sheetRowFor, h1]
  dsimp only
  rw [if_neg hds, h2]

/-- C10 witness: the backdate `"10/12/2024"` persists as noon of
2024-12-10 with day 10, month 12, year 2024. -/
theorem backdate_persists_noon_witness :
    parseBackdate "10/12/2024" = some (10, 12, 2024) ∧
    sheetRowFor ⟨"2025-10-12 09:30:00", 12, 10, 2025⟩
        ⟨"áo", 200000, "Khác", some "10/12/2024"⟩ =
      ⟨fmtNoon 2024 12 10, 10, 12, 2024, "áo", "Khác", 200000⟩ ∧
    fmtNoon 2024 12 10 = "2024-12-10 12:00:00" :=
  ⟨by decide,
    (backdate_persists_noon ⟨"2025-10-12 09:30:00", 12, 10, 2025⟩
        ⟨"áo", 200000, "Khác", some "10/12/2024"⟩ "10/12/2024" 10 12 2024 rfl
        (by decide)).1,
    by decide⟩
